import Mathlib

/-!
# Plugin registrant of the Windows runner

Source: `windows/flutter/generated_plugin_registrant.cc`, one function,

    void RegisterPlugins(flutter::PluginRegistry* registry)

whose body is six statements of the form
`XRegisterWithRegistrar(registry->GetRegistrarForPlugin("X"));`.

The function is straight-line effectful code over two kinds of external
collaborators: the virtual method `GetRegistrarForPlugin` of the registry
object, and the six C entry points of the plugin libraries.  Both are taken as
parameters of the embedding, acting on a host state of arbitrary type `σ`
(the registry object, the engine and the plugin libraries together).  A lookup
may change the host state and may return any pointer, the null pointer
included; a registration call may change the host state.  Every external call
is recorded in an effect trace, in the order in which it happens.

Assumptions of the embedding: the handle `registry` points to a live object,
and each external call returns to its caller.
-/

namespace PluginRegistrant

/-- The C type of a registrar handle, a pointer; it is modelled by its address,
and address zero is the null pointer. -/
abbrev FlutterDesktopPluginRegistrarRef := Nat

/-- The null registrar handle. -/
def nullRegistrar : FlutterDesktopPluginRegistrarRef := 0

/-- One external call made by the registrant: a registry lookup under a plugin
name together with the handle it returned, or a call of the C entry point with
the given symbol name together with the handle passed to it. -/
inductive Event where
  | lookup (name : String) (result : FlutterDesktopPluginRegistrarRef)
  | call (entryPoint : String) (registrar : FlutterDesktopPluginRegistrarRef)
  deriving DecidableEq, Repr

/-- The class `flutter::PluginRegistry` as seen by the registrant: its one
virtual method, which takes the plugin name and the current host state and
gives back a registrar handle and the next host state. -/
structure PluginRegistry (σ : Type) where
  GetRegistrarForPlugin : String → σ → FlutterDesktopPluginRegistrarRef × σ

/-- The plugin libraries linked into the runner: the behaviour of the C entry
point with a given symbol name when it is handed a registrar. -/
structure PluginLibraries (σ : Type) where
  invoke : String → FlutterDesktopPluginRegistrarRef → σ → σ

/-- The state threaded through the registrant: the host state and the trace of
external calls made so far, oldest first. -/
structure World (σ : Type) where
  host : σ
  trace : List Event

/-- Effectful computations of the registrant. -/
abbrev Eff (σ : Type) (α : Type) := StateM (World σ) α

/-- The expression `registry->GetRegistrarForPlugin(name)`. -/
def PluginRegistry.getRegistrarForPlugin {σ : Type} (registry : PluginRegistry σ)
    (name : String) : Eff σ FlutterDesktopPluginRegistrarRef :=
  fun w =>
    let r := registry.GetRegistrarForPlugin name w.host
    (r.1, { host := r.2, trace := w.trace ++ [Event.lookup name r.1] })

/-- A call of the C entry point `entryPoint` on `registrar`. -/
def PluginLibraries.callEntryPoint {σ : Type} (plugins : PluginLibraries σ)
    (entryPoint : String) (registrar : FlutterDesktopPluginRegistrarRef) : Eff σ Unit :=
  fun w =>
    ((), { host := plugins.invoke entryPoint registrar w.host,
           trace := w.trace ++ [Event.call entryPoint registrar] })

/-- Entry point declared by `at_file_saver/file_saver_plugin.h`. -/
def FileSaverPluginRegisterWithRegistrar {σ : Type} (plugins : PluginLibraries σ)
    (registrar : FlutterDesktopPluginRegistrarRef) : Eff σ Unit :=
  plugins.callEntryPoint "FileSaverPluginRegisterWithRegistrar" registrar

/-- Entry point declared by
`permission_handler_windows/permission_handler_windows_plugin.h`. -/
def PermissionHandlerWindowsPluginRegisterWithRegistrar {σ : Type}
    (plugins : PluginLibraries σ) (registrar : FlutterDesktopPluginRegistrarRef) :
    Eff σ Unit :=
  plugins.callEntryPoint "PermissionHandlerWindowsPluginRegisterWithRegistrar" registrar

/-- Entry point declared by `screen_retriever/screen_retriever_plugin.h`. -/
def ScreenRetrieverPluginRegisterWithRegistrar {σ : Type} (plugins : PluginLibraries σ)
    (registrar : FlutterDesktopPluginRegistrarRef) : Eff σ Unit :=
  plugins.callEntryPoint "ScreenRetrieverPluginRegisterWithRegistrar" registrar

/-- Entry point declared by `share_plus/share_plus_windows_plugin_c_api.h`. -/
def SharePlusWindowsPluginCApiRegisterWithRegistrar {σ : Type}
    (plugins : PluginLibraries σ) (registrar : FlutterDesktopPluginRegistrarRef) :
    Eff σ Unit :=
  plugins.callEntryPoint "SharePlusWindowsPluginCApiRegisterWithRegistrar" registrar

/-- Entry point declared by `url_launcher_windows/url_launcher_windows.h`. -/
def UrlLauncherWindowsRegisterWithRegistrar {σ : Type} (plugins : PluginLibraries σ)
    (registrar : FlutterDesktopPluginRegistrarRef) : Eff σ Unit :=
  plugins.callEntryPoint "UrlLauncherWindowsRegisterWithRegistrar" registrar

/-- Entry point declared by `window_manager/window_manager_plugin.h`. -/
def WindowManagerPluginRegisterWithRegistrar {σ : Type} (plugins : PluginLibraries σ)
    (registrar : FlutterDesktopPluginRegistrarRef) : Eff σ Unit :=
  plugins.callEntryPoint "WindowManagerPluginRegisterWithRegistrar" registrar

/-- The function `RegisterPlugins` of `generated_plugin_registrant.cc`.  In each
statement the argument, a registry lookup, is evaluated before the call. -/
def RegisterPlugins {σ : Type} (plugins : PluginLibraries σ)
    (registry : PluginRegistry σ) : Eff σ Unit := do
  FileSaverPluginRegisterWithRegistrar plugins
      (← registry.getRegistrarForPlugin "FileSaverPlugin")
  PermissionHandlerWindowsPluginRegisterWithRegistrar plugins
      (← registry.getRegistrarForPlugin "PermissionHandlerWindowsPlugin")
  ScreenRetrieverPluginRegisterWithRegistrar plugins
      (← registry.getRegistrarForPlugin "ScreenRetrieverPlugin")
  SharePlusWindowsPluginCApiRegisterWithRegistrar plugins
      (← registry.getRegistrarForPlugin "SharePlusWindowsPluginCApi")
  UrlLauncherWindowsRegisterWithRegistrar plugins
      (← registry.getRegistrarForPlugin "UrlLauncherWindows")
  WindowManagerPluginRegisterWithRegistrar plugins
      (← registry.getRegistrarForPlugin "WindowManagerPlugin")

/-- The world in which one call of `RegisterPlugins` ends when it starts in host
state `s` with an empty trace. -/
def runRegisterPlugins {σ : Type} (plugins : PluginLibraries σ)
    (registry : PluginRegistry σ) (s : σ) : World σ :=
  (RegisterPlugins plugins registry { host := s, trace := [] }).2

/-- The effect trace of one call of `RegisterPlugins` started in host state `s`. -/
def effectTrace {σ : Type} (plugins : PluginLibraries σ)
    (registry : PluginRegistry σ) (s : σ) : List Event :=
  (runRegisterPlugins plugins registry s).trace

/-- The registry lookups of a trace, in order: plugin name and returned handle. -/
def lookups : List Event → List (String × FlutterDesktopPluginRegistrarRef)
  | [] => []
  | Event.lookup name result :: rest => (name, result) :: lookups rest
  | Event.call _ _ :: rest => lookups rest

/-- The entry-point calls of a trace, in order: symbol name and handle passed. -/
def registrations : List Event → List (String × FlutterDesktopPluginRegistrarRef)
  | [] => []
  | Event.lookup _ _ :: rest => registrations rest
  | Event.call entryPoint registrar :: rest => (entryPoint, registrar) :: registrations rest

/-- A registry whose lookup hands out the null handle under every name and
leaves the host state alone. -/
def nullRegistry : PluginRegistry Unit where
  GetRegistrarForPlugin := fun _ s => (nullRegistrar, s)

/-- Plugin libraries whose entry points leave the host state alone. -/
def idlePlugins (σ : Type) : PluginLibraries σ where
  invoke := fun _ _ s => s

/-- A registry in front of an engine that may not be running: the host state
says whether the engine runs; a lookup gives a live handle when it does and
the null handle when it does not, and it leaves the host state alone. -/
def engineRegistry : PluginRegistry Bool where
  GetRegistrarForPlugin := fun _ running => (if running then 1 else nullRegistrar, running)

/-- A tally of entry-point executions after one more execution of `entryPoint`. -/
def tick (entryPoint : String) (tally : String → Nat) : String → Nat :=
  fun symbol => if symbol = entryPoint then tally symbol + 1 else tally symbol

/-- The given plugin libraries with a tally kept inside them: the host state is
paired with the number of times each entry point has been executed.  The tally
is advanced by the entry point itself when it runs, and by nothing else. -/
def PluginLibraries.withTally {σ : Type} (plugins : PluginLibraries σ) :
    PluginLibraries (σ × (String → Nat)) where
  invoke := fun entryPoint registrar st =>
    (plugins.invoke entryPoint registrar st.1, tick entryPoint st.2)

/-- The given registry next to tallied plugin libraries: a lookup acts on the host
state as before and leaves the tally alone. -/
def PluginRegistry.withTally {σ : Type} (registry : PluginRegistry σ) :
    PluginRegistry (σ × (String → Nat)) where
  GetRegistrarForPlugin := fun name st =>
    ((registry.GetRegistrarForPlugin name st.1).1,
     ((registry.GetRegistrarForPlugin name st.1).2, st.2))

/-! ## Shape of the effect trace -/

/-- The entry points called by one run, in order, whatever the collaborators do. -/
theorem registrations_entryPoints {σ : Type} (plugins : PluginLibraries σ)
    (registry : PluginRegistry σ) (s : σ) :
    (registrations (effectTrace plugins registry s)).map Prod.fst =
      ["FileSaverPluginRegisterWithRegistrar",
       "PermissionHandlerWindowsPluginRegisterWithRegistrar",
       "ScreenRetrieverPluginRegisterWithRegistrar",
       "SharePlusWindowsPluginCApiRegisterWithRegistrar",
       "UrlLauncherWindowsRegisterWithRegistrar",
       "WindowManagerPluginRegisterWithRegistrar"] := rfl

/-- The plugin names looked up by one run, in order, whatever the collaborators do. -/
theorem lookups_names {σ : Type} (plugins : PluginLibraries σ)
    (registry : PluginRegistry σ) (s : σ) :
    (lookups (effectTrace plugins registry s)).map Prod.fst =
      ["FileSaverPlugin",
       "PermissionHandlerWindowsPlugin",
       "ScreenRetrieverPlugin",
       "SharePlusWindowsPluginCApi",
       "UrlLauncherWindows",
       "WindowManagerPlugin"] := rfl

/-- The effect trace of one run, written out: each lookup is made in the host
state left by the registration call before it. -/
theorem effectTrace_eq {σ : Type} (plugins : PluginLibraries σ)
    (registry : PluginRegistry σ) (s : σ) :
    let r1 := registry.GetRegistrarForPlugin "FileSaverPlugin" s
    let s1 := plugins.invoke "FileSaverPluginRegisterWithRegistrar" r1.1 r1.2
    let r2 := registry.GetRegistrarForPlugin "PermissionHandlerWindowsPlugin" s1
    let s2 := plugins.invoke "PermissionHandlerWindowsPluginRegisterWithRegistrar" r2.1 r2.2
    let r3 := registry.GetRegistrarForPlugin "ScreenRetrieverPlugin" s2
    let s3 := plugins.invoke "ScreenRetrieverPluginRegisterWithRegistrar" r3.1 r3.2
    let r4 := registry.GetRegistrarForPlugin "SharePlusWindowsPluginCApi" s3
    let s4 := plugins.invoke "SharePlusWindowsPluginCApiRegisterWithRegistrar" r4.1 r4.2
    let r5 := registry.GetRegistrarForPlugin "UrlLauncherWindows" s4
    let s5 := plugins.invoke "UrlLauncherWindowsRegisterWithRegistrar" r5.1 r5.2
    let r6 := registry.GetRegistrarForPlugin "WindowManagerPlugin" s5
    effectTrace plugins registry s =
      [Event.lookup "FileSaverPlugin" r1.1,
       Event.call "FileSaverPluginRegisterWithRegistrar" r1.1,
       Event.lookup "PermissionHandlerWindowsPlugin" r2.1,
       Event.call "PermissionHandlerWindowsPluginRegisterWithRegistrar" r2.1,
       Event.lookup "ScreenRetrieverPlugin" r3.1,
       Event.call "ScreenRetrieverPluginRegisterWithRegistrar" r3.1,
       Event.lookup "SharePlusWindowsPluginCApi" r4.1,
       Event.call "SharePlusWindowsPluginCApiRegisterWithRegistrar" r4.1,
       Event.lookup "UrlLauncherWindows" r5.1,
       Event.call "UrlLauncherWindowsRegisterWithRegistrar" r5.1,
       Event.lookup "WindowManagerPlugin" r6.1,
       Event.call "WindowManagerPluginRegisterWithRegistrar" r6.1] := rfl

/-- The tally left by one run on tallied plugin libraries: the six entry points
have each advanced it, in source order. -/
theorem withTally_tally {σ : Type} (plugins : PluginLibraries σ)
    (registry : PluginRegistry σ) (s : σ) (tally : String → Nat) :
    (runRegisterPlugins plugins.withTally registry.withTally (s, tally)).host.2 =
      tick "WindowManagerPluginRegisterWithRegistrar"
        (tick "UrlLauncherWindowsRegisterWithRegistrar"
          (tick "SharePlusWindowsPluginCApiRegisterWithRegistrar"
            (tick "ScreenRetrieverPluginRegisterWithRegistrar"
              (tick "PermissionHandlerWindowsPluginRegisterWithRegistrar"
                (tick "FileSaverPluginRegisterWithRegistrar" tally))))) := rfl

/-- Keeping a tally does not change what a run does to the host state. -/
theorem withTally_host {σ : Type} (plugins : PluginLibraries σ)
    (registry : PluginRegistry σ) (s : σ) (tally : String → Nat) :
    (runRegisterPlugins plugins.withTally registry.withTally (s, tally)).host.1 =
      (runRegisterPlugins plugins registry s).host := rfl

/-- Keeping a tally does not change the effect trace of a run. -/
theorem withTally_effectTrace {σ : Type} (plugins : PluginLibraries σ)
    (registry : PluginRegistry σ) (s : σ) (tally : String → Nat) :
    effectTrace plugins.withTally registry.withTally (s, tally) =
      effectTrace plugins registry s := rfl

/-! ## The claims -/

/-- Claim C1: for every registry handle, whatever the registry and the plugin
libraries do, one call of `RegisterPlugins` executes each of the six
registration entry points exactly once and no other entry point.  The entry
points recorded in the effect trace are exactly the six symbols, each once; and
when the plugin libraries keep their own tally of executions, one call adds one
to the tally of each of the six symbols and nothing to the tally of any other
symbol, while the host state and the effect trace are those of the run without
a tally. -/
theorem registerPlugins_invokes_each_entry_point_once {σ : Type} (plugins : PluginLibraries σ)
    (registry : PluginRegistry σ) (s : σ)
    (tally : String → Nat) :
    (registrations (effectTrace plugins registry s)).map Prod.fst =
      ["FileSaverPluginRegisterWithRegistrar",
       "PermissionHandlerWindowsPluginRegisterWithRegistrar",
       "ScreenRetrieverPluginRegisterWithRegistrar",
       "SharePlusWindowsPluginCApiRegisterWithRegistrar",
       "UrlLauncherWindowsRegisterWithRegistrar",
       "WindowManagerPluginRegisterWithRegistrar"] ∧
    (∀ entryPoint : String,
      ((registrations (effectTrace plugins registry s)).map Prod.fst).count entryPoint =
        if entryPoint ∈
            ["FileSaverPluginRegisterWithRegistrar",
             "PermissionHandlerWindowsPluginRegisterWithRegistrar",
             "ScreenRetrieverPluginRegisterWithRegistrar",
             "SharePlusWindowsPluginCApiRegisterWithRegistrar",
             "UrlLauncherWindowsRegisterWithRegistrar",
             "WindowManagerPluginRegisterWithRegistrar"]
        then 1 else 0) ∧
    (∀ entryPoint : String,
      (runRegisterPlugins plugins.withTally registry.withTally (s, tally)).host.2 entryPoint =
        tally entryPoint +
          if entryPoint ∈
            ["FileSaverPluginRegisterWithRegistrar",
             "PermissionHandlerWindowsPluginRegisterWithRegistrar",
             "ScreenRetrieverPluginRegisterWithRegistrar",
             "SharePlusWindowsPluginCApiRegisterWithRegistrar",
             "UrlLauncherWindowsRegisterWithRegistrar",
             "WindowManagerPluginRegisterWithRegistrar"]
          then 1 else 0) ∧
    (runRegisterPlugins plugins.withTally registry.withTally (s, tally)).host.1 =
      (runRegisterPlugins plugins registry s).host ∧
    effectTrace plugins.withTally registry.withTally (s, tally) =
      effectTrace plugins registry s := by
  refine ⟨rfl, fun entryPoint => ?_, fun entryPoint => ?_,
    withTally_host plugins registry s tally, withTally_effectTrace plugins registry s tally⟩
  · rw [registrations_entryPoints]
    exact List.count_eq_of_nodup (by decide)
  · rw [withTally_tally]
    by_cases h1 : entryPoint = "FileSaverPluginRegisterWithRegistrar"
    · subst h1; simp [tick]
    by_cases h2 : entryPoint = "PermissionHandlerWindowsPluginRegisterWithRegistrar"
    · subst h2; simp [tick]
    by_cases h3 : entryPoint = "ScreenRetrieverPluginRegisterWithRegistrar"
    · subst h3; simp [tick]
    by_cases h4 : entryPoint = "SharePlusWindowsPluginCApiRegisterWithRegistrar"
    · subst h4; simp [tick]
    by_cases h5 : entryPoint = "UrlLauncherWindowsRegisterWithRegistrar"
    · subst h5; simp [tick]
    by_cases h6 : entryPoint = "WindowManagerPluginRegisterWithRegistrar"
    · subst h6; simp [tick]
    simp [tick, h1, h2, h3, h4, h5, h6]

/-- Claim C3: the plugin names that one call of `RegisterPlugins` passes to
`GetRegistrarForPlugin` are six names, pairwise distinct. -/
theorem registerPlugins_lookup_names_pairwise_distinct {σ : Type} (plugins : PluginLibraries σ)
    (registry : PluginRegistry σ) (s : σ) :
    ((lookups (effectTrace plugins registry s)).map Prod.fst).length = 6 ∧
    List.Pairwise (fun a b => a ≠ b) ((lookups (effectTrace plugins registry s)).map Prod.fst) := by
  rw [lookups_names]
  exact ⟨rfl, by decide⟩

/-- Claim C4, as stated, fails: with a registry whose lookup returns the null
handle, an entry point is handed the null handle. -/
theorem registerPlugins_forwards_null_registrar :
    ¬ (∀ e ∈ registrations (effectTrace (idlePlugins Unit) nullRegistry ()),
        e.2 ≠ nullRegistrar) := by
  decide

/-- Claim C4, amended: when each of the six lookups that `RegisterPlugins` makes
returns a non-null handle, every handle that `RegisterPlugins` passes to a
registration entry point is non-null.  The lookups are those of the run: each
under its plugin name, in the host state left by the registration call before
it. -/
theorem registerPlugins_registrars_nonnull_of_lookups_nonnull {σ : Type} (plugins : PluginLibraries σ)
    (registry : PluginRegistry σ) (s : σ) :
    let r1 := registry.GetRegistrarForPlugin "FileSaverPlugin" s
    let s1 := plugins.invoke "FileSaverPluginRegisterWithRegistrar" r1.1 r1.2
    let r2 := registry.GetRegistrarForPlugin "PermissionHandlerWindowsPlugin" s1
    let s2 := plugins.invoke "PermissionHandlerWindowsPluginRegisterWithRegistrar" r2.1 r2.2
    let r3 := registry.GetRegistrarForPlugin "ScreenRetrieverPlugin" s2
    let s3 := plugins.invoke "ScreenRetrieverPluginRegisterWithRegistrar" r3.1 r3.2
    let r4 := registry.GetRegistrarForPlugin "SharePlusWindowsPluginCApi" s3
    let s4 := plugins.invoke "SharePlusWindowsPluginCApiRegisterWithRegistrar" r4.1 r4.2
    let r5 := registry.GetRegistrarForPlugin "UrlLauncherWindows" s4
    let s5 := plugins.invoke "UrlLauncherWindowsRegisterWithRegistrar" r5.1 r5.2
    let r6 := registry.GetRegistrarForPlugin "WindowManagerPlugin" s5
    r1.1 ≠ nullRegistrar → r2.1 ≠ nullRegistrar → r3.1 ≠ nullRegistrar →
    r4.1 ≠ nullRegistrar → r5.1 ≠ nullRegistrar → r6.1 ≠ nullRegistrar →
    ∀ e ∈ registrations (effectTrace plugins registry s), e.2 ≠ nullRegistrar := by
  intro r1 s1 r2 s2 r3 s3 r4 s4 r5 s5 r6 h1 h2 h3 h4 h5 h6 e he
  rw [effectTrace_eq plugins registry s] at he
  simp only [registrations, List.mem_cons, List.mem_singleton, List.not_mem_nil,
    or_false] at he
  rcases he with rfl | rfl | rfl | rfl | rfl | rfl
  · exact h1
  · exact h2
  · exact h3
  · exact h4
  · exact h5
  · exact h6

/-- Witness for the amended claim C4: a registry that returns the null handle
when the engine is not running, started with the engine running.  Its six
lookups return a live handle, and no entry point is handed the null handle. -/
theorem registerPlugins_registrars_nonnull_witness :
    (engineRegistry.GetRegistrarForPlugin "FileSaverPlugin" false).1 = nullRegistrar ∧
    (engineRegistry.GetRegistrarForPlugin "FileSaverPlugin" true).1 ≠ nullRegistrar ∧
    ∀ e ∈ registrations (effectTrace (idlePlugins Bool) engineRegistry true),
      e.2 ≠ nullRegistrar :=
  ⟨rfl, by decide,
   registerPlugins_registrars_nonnull_of_lookups_nonnull (idlePlugins Bool) engineRegistry true
     (by decide) (by decide) (by decide) (by decide) (by decide) (by decide)⟩

/-- Claim C6: one call of `RegisterPlugins` makes twelve external calls: six
registry lookups, one under each of the six plugin names and none repeated, and
six entry-point calls.  The host state it leaves behind is the starting state
carried through exactly those twelve calls, in order. -/
theorem registerPlugins_effects_are_six_lookups_six_calls {σ : Type} (plugins : PluginLibraries σ)
    (registry : PluginRegistry σ) (s : σ) :
    let r1 := registry.GetRegistrarForPlugin "FileSaverPlugin" s
    let s1 := plugins.invoke "FileSaverPluginRegisterWithRegistrar" r1.1 r1.2
    let r2 := registry.GetRegistrarForPlugin "PermissionHandlerWindowsPlugin" s1
    let s2 := plugins.invoke "PermissionHandlerWindowsPluginRegisterWithRegistrar" r2.1 r2.2
    let r3 := registry.GetRegistrarForPlugin "ScreenRetrieverPlugin" s2
    let s3 := plugins.invoke "ScreenRetrieverPluginRegisterWithRegistrar" r3.1 r3.2
    let r4 := registry.GetRegistrarForPlugin "SharePlusWindowsPluginCApi" s3
    let s4 := plugins.invoke "SharePlusWindowsPluginCApiRegisterWithRegistrar" r4.1 r4.2
    let r5 := registry.GetRegistrarForPlugin "UrlLauncherWindows" s4
    let s5 := plugins.invoke "UrlLauncherWindowsRegisterWithRegistrar" r5.1 r5.2
    let r6 := registry.GetRegistrarForPlugin "WindowManagerPlugin" s5
    let s6 := plugins.invoke "WindowManagerPluginRegisterWithRegistrar" r6.1 r6.2
    (lookups (effectTrace plugins registry s)).map Prod.fst =
      ["FileSaverPlugin",
       "PermissionHandlerWindowsPlugin",
       "ScreenRetrieverPlugin",
       "SharePlusWindowsPluginCApi",
       "UrlLauncherWindows",
       "WindowManagerPlugin"] ∧
    ((lookups (effectTrace plugins registry s)).map Prod.fst).Nodup ∧
    (lookups (effectTrace plugins registry s)).length = 6 ∧
    (registrations (effectTrace plugins registry s)).length = 6 ∧
    (effectTrace plugins registry s).length = 12 ∧
    (runRegisterPlugins plugins registry s).host = s6 := by
  intros
  refine ⟨rfl, ?_, rfl, rfl, rfl, rfl⟩
  rw [lookups_names]
  decide

end PluginRegistrant
